import Mathlib

/-!
# Verification of the MayaUSD rig-validation core

Shallow embedding of the validation engine in
`src/plugin/USDRigValidator/src/ValidateRigCmd.cpp`: the canonical skeleton
and skin-binding data, the tolerance-based matrix comparator
`matricesMatch`, the quick (boolean) and detailed (issue-list) validators,
and the truncated mismatch reporting of the skin-binding validator.

Doubles/floats are embedded as rationals (`ℚ`); machine strings as `String`;
the C++ arrays (`VtArray`, `MIntArray`, `MStringArray`, `MMatrixArray`,
`MFloatArray`) as `List`.  A C++ loop `for (i = 0; i < xs.size(); ++i)`
that indexes a second array `ys[i]` is embedded as simultaneous structural
recursion on both lists; when `ys` can be shorter than `xs` the recursion
returns `none`, modelling the out-of-bounds access (undefined behaviour)
the C++ would perform at `i = ys.size()`.
-/

set_option autoImplicit false

namespace RigValidator

universe u

/-- A 4×4 matrix of doubles (`GfMatrix4d` / `MMatrix`), entries as `ℚ`. -/
def Matrix4x4 : Type := Fin 4 → Fin 4 → ℚ

/-- Modelled from the spec: the default `tolerance` argument of
`matricesMatch` is declared in `ValidateRigCmd.h`, which is not under
`src/`; §4.1 of the spec gives the default as `1e-6`. -/
def defaultTolerance : ℚ := 1 / 1000000

/-- The source constant `const float weightTolerance = 1e-5f;` used by both skin-binding
validators. -/
def weightTolerance : ℚ := 1 / 100000

/-- Source `ValidateRigCmd::matricesMatch`: compares all 16 corresponding entries;
a difference strictly greater than `tolerance` makes it return `false`,
otherwise it returns `true`. -/
def matricesMatch (usdMat mayaMat : Matrix4x4) (tolerance : ℚ) : Bool :=
  (List.finRange 4).all fun row =>
    (List.finRange 4).all fun col =>
      decide (|usdMat row col - mayaMat row col| ≤ tolerance)

/-- Skeleton data (`USDSkeletonData` / `MayaSkeletonData`): joint names,
parent indices, bind transforms and rest transforms.  The two C++ structs
differ only in the host array types, so one Lean structure serves both
sides.  The identifying path fields play no part in validation and are
omitted. -/
structure SkeletonData where
  jointNames : List String
  jointParentIndices : List Int
  bindTransforms : List Matrix4x4
  restTransforms : List Matrix4x4

/-- Skin-binding data (`USDSkinBindingData` / `MayaSkinBindingData`):
flat joint-index and weight sequences plus the geometry bind transform.
The identifying path fields are omitted. -/
structure SkinBindingData where
  jointIndices : List Int
  jointWeights : List ℚ
  geomBindTransform : Matrix4x4

/-- The `ValidationIssue::Type` enumeration, as used by the validators. -/
inductive IssueType where
  | JOINT_COUNT_MISMATCH
  | JOINT_NAME_MISMATCH
  | PARENT_INDEX_MISMATCH
  | BIND_TRANSFORM_MISMATCH
  | REST_TRANSFORM_MISMATCH
  | WEIGHT_COUNT_MISMATCH
  | JOINT_INDEX_MISMATCH
  | WEIGHT_VALUE_MISMATCH
  | GEOM_BIND_TRANSFORM_MISMATCH
  deriving DecidableEq, Repr

/-- Modelled from the spec: the `ValidationIssue` record is declared in
`ValidateRigCmd.h`, which is not under `src/`.  Per §3 it carries a kind,
a human-readable description and an optional index, "−1/absent when the
issue is not localized"; the two-argument `emplace_back` calls in the
source construct an issue with no index (`index = none`), the
three-argument calls pass the position. -/
structure ValidationIssue where
  type : IssueType
  description : String
  index : Option Nat
  deriving DecidableEq, Repr

/-- The joint-count issue of `detailedValidateSkeleton` (source line 454). -/
def jointCountIssue (usdCount mayaCount : Nat) : ValidationIssue :=
  { type := IssueType.JOINT_COUNT_MISMATCH
    description := "Joint count mismatch: USD has " ++ toString usdCount ++
      " joints, Maya has " ++ toString mayaCount ++ " joints"
    index := none }

/-- Per-joint name-mismatch issue (source line 466). -/
def mkNameIssue (i : Nat) (usdName mayaName : String) : ValidationIssue :=
  { type := IssueType.JOINT_NAME_MISMATCH
    description := "Joint " ++ toString i ++ " name mismatch: USD=\x27\x27" ++
      usdName ++ "\x27\x27, Maya=\x27\x27" ++ mayaName ++ "\x27\x27"
    index := some i }

/-- Per-joint parent-index-mismatch issue (source line 478; the format string of the source reads "Maya^3s" with no equals sign, reproduced here). -/
def mkParentIssue (i : Nat) (usdParent mayaParent : Int) : ValidationIssue :=
  { type := IssueType.PARENT_INDEX_MISMATCH
    description := "Joint " ++ toString i ++ " parent index mismatch: USD=" ++
      toString usdParent ++ ", Maya" ++ toString mayaParent
    index := some i }

/-- Per-joint bind-transform-mismatch issue (source line 490); the
description quotes the Maya-side joint name. -/
def mkBindIssue (i : Nat) (mayaName : String) : ValidationIssue :=
  { type := IssueType.BIND_TRANSFORM_MISMATCH
    description := "Joint " ++ toString i ++ " (" ++ mayaName ++
      ") bind transform mismatch"
    index := some i }

/-- Per-joint rest-transform-mismatch issue (source line 501). -/
def mkRestIssue (i : Nat) (mayaName : String) : ValidationIssue :=
  { type := IssueType.REST_TRANSFORM_MISMATCH
    description := "Joint " ++ toString i ++ " (" ++ mayaName ++
      ") rest transform mismatch"
    index := some i }

/-- Joint-indices count-mismatch issue of `detailedValidateSkinBinding`
(source line 550; the source tags it `WEIGHT_COUNT_MISMATCH`). -/
def jointIndicesCountIssue (usdCount mayaCount : Nat) : ValidationIssue :=
  { type := IssueType.WEIGHT_COUNT_MISMATCH
    description := "Joint indices count mismatch: USD has " ++
      toString usdCount ++ ", Maya has " ++ toString mayaCount
    index := none }

/-- Joint-weights count-mismatch issue (source line 560). -/
def jointWeightsCountIssue (usdCount mayaCount : Nat) : ValidationIssue :=
  { type := IssueType.WEIGHT_COUNT_MISMATCH
    description := "Joint weights count mismatch: USD has " ++
      toString usdCount ++ ", Maya has " ++ toString mayaCount
    index := none }

/-- Individual joint-index-mismatch issue (source line 572). -/
def mkJointIndexIssue (i : Nat) (usdIdx mayaIdx : Int) : ValidationIssue :=
  { type := IssueType.JOINT_INDEX_MISMATCH
    description := "Joint index mismatch at position " ++ toString i ++
      ": USD=" ++ toString usdIdx ++ ", Maya=" ++ toString mayaIdx
    index := some i }

/-- The suppressed-joint-index-mismatch summary issue (source line 585);
`extra` is the value `indicesMismatchCount - 5` of the source. -/
def idxSummaryIssue (extra : Nat) : ValidationIssue :=
  { type := IssueType.JOINT_INDEX_MISMATCH
    description := "... and " ++ toString extra ++
      " more joint index mismatches (showing first 5 only)"
    index := none }

/-- Individual weight-value-mismatch issue (source line 596); the
description carries both weights and their absolute difference. -/
def mkWeightIssue (i : Nat) (usdW mayaW : ℚ) : ValidationIssue :=
  { type := IssueType.WEIGHT_VALUE_MISMATCH
    description := "Weight mismatch at position " ++ toString i ++
      ": USD=" ++ toString usdW ++ ", Maya=" ++ toString mayaW ++
      " (diff=" ++ toString (|usdW - mayaW|) ++ ")"
    index := some i }

/-- The suppressed-weight-mismatch summary issue (source line 611). -/
def wtSummaryIssue (extra : Nat) : ValidationIssue :=
  { type := IssueType.WEIGHT_VALUE_MISMATCH
    description := "... and " ++ toString extra ++
      " more weight mismatches (showing first 5 only)"
    index := none }

/-- Geometry-bind-transform-mismatch issue (source line 619). -/
def geomBindIssue : ValidationIssue :=
  { type := IssueType.GEOM_BIND_TRANSFORM_MISMATCH
    description := "Geometry bind transform mismatch"
    index := none }

/-- A `for (i = 0; i < xs.size(); ++i) if (!p(xs[i], ys[i])) return false;`
loop whose bounds checks have already established `xs.length = ys.length`
(so the `ys`-exhausted case is unreachable). -/
def allPairs {α : Type u} (p : α → α → Bool) : List α → List α → Bool
  | [], _ => true
  | _ :: _, [] => true
  | x :: xs, y :: ys => p x y && allPairs p xs ys

/-- The same loop shape where `ys` may genuinely be shorter than `xs`
(no preceding length check): reaching `i = ys.length` with every earlier
pair passing is the C++ out-of-bounds read, returned as `none`. -/
def pairwiseCheck {α : Type u} (p : α → α → Bool) : List α → List α → Option Bool
  | [], _ => some true
  | _ :: _, [] => none
  | x :: xs, y :: ys => if p x y then pairwiseCheck p xs ys else some false

/-- An issue-collecting loop comparing `xs[i]` with `ys[i]` under `BEq`,
as in the joint-name and parent-index loops of `detailedValidateSkeleton`;
`none` models the out-of-bounds read when `ys` runs out first. -/
def eqIssueScan {α : Type u} [BEq α] (mk : Nat → α → α → ValidationIssue) :
    Nat → List α → List α → Option (List ValidationIssue)
  | _, [], _ => some []
  | _, _ :: _, [] => none
  | i, x :: xs, y :: ys =>
    (eqIssueScan mk (i + 1) xs ys).map fun rest =>
      (if x == y then [] else [mk i x y]) ++ rest

/-- An issue-collecting loop comparing transform lists with
`matricesMatch` at the default tolerance, as in the bind- and
rest-transform loops of `detailedValidateSkeleton`.  On a mismatch the
issue description reads `mayaNames[i]`, a second possibly out-of-bounds
access, hence the `List.get?`. -/
def matIssueScan (mayaNames : List String) (mk : Nat → String → ValidationIssue) :
    Nat → List Matrix4x4 → List Matrix4x4 → Option (List ValidationIssue)
  | _, [], _ => some []
  | _, _ :: _, [] => none
  | i, x :: xs, y :: ys =>
    if matricesMatch x y defaultTolerance then
      matIssueScan mayaNames mk (i + 1) xs ys
    else
      (mayaNames.get? i).bind fun nm =>
        (matIssueScan mayaNames mk (i + 1) xs ys).map fun rest =>
          mk i nm :: rest

/-- The counting-and-truncating mismatch loop of
`detailedValidateSkinBinding`: counts every mismatching position but emits
an individual issue only while the running count is at most 5.  Returns
the final count and the emitted issues.  The preceding length check makes
the `ys`-exhausted case unreachable. -/
def mismatchScan {α : Type u} (isMis : α → α → Bool)
    (mk : Nat → α → α → ValidationIssue) :
    Nat → Nat → List α → List α → Nat × List ValidationIssue
  | _, c, [], _ => (c, [])
  | _, c, _ :: _, [] => (c, [])
  | i, c, x :: xs, y :: ys =>
    if isMis x y then
      let r := mismatchScan isMis mk (i + 1) (c + 1) xs ys
      (r.1, (if c + 1 ≤ 5 then [mk i x y] else []) ++ r.2)
    else
      mismatchScan isMis mk (i + 1) c xs ys

/-- Source `ValidateRigCmd::quickValidateSkeleton` (lines 415–445):
three length checks (joint names, parent indices, bind transforms — the
rest-transform lengths are never compared), then the four element loops,
returning `false` at the first disagreement.  The rest-transform loop runs
to `usdSkel.restTransforms.size()` with no length guard, so it can read
out of bounds (`none`). -/
def quickValidateSkeleton (usdSkel mayaSkel : SkeletonData) : Option Bool :=
  if usdSkel.jointNames.length ≠ mayaSkel.jointNames.length then some false
  else if usdSkel.jointParentIndices.length ≠ mayaSkel.jointParentIndices.length then some false
  else if usdSkel.bindTransforms.length ≠ mayaSkel.bindTransforms.length then some false
  else if !allPairs (fun a b => a == b) usdSkel.jointNames mayaSkel.jointNames then some false
  else if !allPairs (fun a b => a == b) usdSkel.jointParentIndices mayaSkel.jointParentIndices then some false
  else if !allPairs (fun a b => matricesMatch a b defaultTolerance)
      usdSkel.bindTransforms mayaSkel.bindTransforms then some false
  else
    pairwiseCheck (fun a b => matricesMatch a b defaultTolerance)
      usdSkel.restTransforms mayaSkel.restTransforms

/-- Source `ValidateRigCmd::detailedValidateSkeleton` (lines 447–511):
on a joint-count mismatch, a single count issue and an early return;
otherwise the four exhaustive per-joint loops, their issues appended in
order.  Only the joint-name count is checked, so the parent-index,
bind-transform and rest-transform loops can read out of bounds (`none`)
when the per-structure array lengths disagree. -/
def detailedValidateSkeleton (usdSkel mayaSkel : SkeletonData) :
    Option (List ValidationIssue) :=
  if usdSkel.jointNames.length ≠ mayaSkel.jointNames.length then
    some [jointCountIssue usdSkel.jointNames.length mayaSkel.jointNames.length]
  else
    (eqIssueScan mkNameIssue 0 usdSkel.jointNames mayaSkel.jointNames).bind fun nameIssues =>
    (eqIssueScan mkParentIssue 0 usdSkel.jointParentIndices mayaSkel.jointParentIndices).bind fun parentIssues =>
    (matIssueScan mayaSkel.jointNames mkBindIssue 0 usdSkel.bindTransforms mayaSkel.bindTransforms).bind fun bindIssues =>
    (matIssueScan mayaSkel.jointNames mkRestIssue 0 usdSkel.restTransforms mayaSkel.restTransforms).map fun restIssues =>
    nameIssues ++ parentIssues ++ bindIssues ++ restIssues

/-- Source `ValidateRigCmd::quickValidateSkinBinding` (lines 513–540):
both length checks, then the joint-index loop, the weight loop at
tolerance `1e-5`, and the geometry bind transform, short-circuiting on the
first failure.  Both loops are in bounds thanks to the length checks, so
this function is total. -/
def quickValidateSkinBinding (usdSkin mayaSkin : SkinBindingData) : Bool :=
  if usdSkin.jointIndices.length ≠ mayaSkin.jointIndices.length then false
  else if usdSkin.jointWeights.length ≠ mayaSkin.jointWeights.length then false
  else
    allPairs (fun a b => a == b) usdSkin.jointIndices mayaSkin.jointIndices &&
    allPairs (fun a b => decide (|a - b| ≤ weightTolerance))
      usdSkin.jointWeights mayaSkin.jointWeights &&
    matricesMatch usdSkin.geomBindTransform mayaSkin.geomBindTransform defaultTolerance

/-- Source `ValidateRigCmd::detailedValidateSkinBinding` (lines 542–625):
one count-mismatch issue and an immediate return if either pair of sequence
lengths differ; otherwise the counting-and-truncating joint-index scan
with its summary issue when more than 5 mismatches were counted, the same
for weights at tolerance `1e-5`, then the geometry bind transform.  Total:
both scans are in bounds thanks to the length checks. -/
def detailedValidateSkinBinding (usdSkin mayaSkin : SkinBindingData) :
    List ValidationIssue :=
  if usdSkin.jointIndices.length ≠ mayaSkin.jointIndices.length then
    [jointIndicesCountIssue usdSkin.jointIndices.length mayaSkin.jointIndices.length]
  else if usdSkin.jointWeights.length ≠ mayaSkin.jointWeights.length then
    [jointWeightsCountIssue usdSkin.jointWeights.length mayaSkin.jointWeights.length]
  else
    let ir := mismatchScan (fun a b => a != b) mkJointIndexIssue 0 0
      usdSkin.jointIndices mayaSkin.jointIndices
    let wr := mismatchScan (fun a b => decide (weightTolerance < |a - b|)) mkWeightIssue 0 0
      usdSkin.jointWeights mayaSkin.jointWeights
    (ir.2 ++ (if ir.1 > 5 then [idxSummaryIssue (ir.1 - 5)] else [])) ++
    (wr.2 ++ (if wr.1 > 5 then [wtSummaryIssue (wr.1 - 5)] else [])) ++
    (if matricesMatch usdSkin.geomBindTransform mayaSkin.geomBindTransform defaultTolerance
      then [] else [geomBindIssue])

/-- The data-model invariant of §3: parent-index, bind-transform and
rest-transform counts all equal the joint count.  `parseUSDSkelData`
checks exactly this (source lines 130–137) and refuses to return a
skeleton violating it; `parseMayaSkel` appends to all four arrays in
lockstep. -/
def wfSkeleton (s : SkeletonData) : Prop :=
  s.jointParentIndices.length = s.jointNames.length ∧
  s.bindTransforms.length = s.jointNames.length ∧
  s.restTransforms.length = s.jointNames.length

instance (s : SkeletonData) : Decidable (wfSkeleton s) := by
  unfold wfSkeleton; infer_instance

/-- Positions paired with elements, starting at index `j` — the loop
counter of the C++ `for` loops, used to state which positions the
validators report. -/
def withIdxFrom {α : Type u} : Nat → List α → List (Nat × α)
  | _, [] => []
  | j, x :: xs => (j, x) :: withIdxFrom (j + 1) xs

/-- The ascending list of positions (with both values) at which the two
joint-index sequences disagree. -/
def indexMismatches (usdSkin mayaSkin : SkinBindingData) : List (Nat × Int × Int) :=
  (withIdxFrom 0 (usdSkin.jointIndices.zip mayaSkin.jointIndices)).filter
    fun q => q.2.1 != q.2.2

/-- The ascending list of positions (with both values) at which the two
weight sequences differ by more than the weight tolerance. -/
def weightMismatches (usdSkin mayaSkin : SkinBindingData) : List (Nat × ℚ × ℚ) :=
  (withIdxFrom 0 (usdSkin.jointWeights.zip mayaSkin.jointWeights)).filter
    fun q => decide (weightTolerance < |q.2.1 - q.2.2|)

/-! ## Loop characterization lemmas -/

theorem get?_eq_some_getD {α : Type u} (d : α) :
    ∀ (l : List α) (j : Nat), j < l.length → l.get? j = some (l.getD j d)
  | [], j, h => by simp at h
  | x :: l, 0, _ => rfl
  | x :: l, j + 1, h => by
    have h' : j < l.length := by simpa using h
    simpa [List.get?, List.getD] using get?_eq_some_getD d l j h'

theorem allPairs_eq_true_iff {α : Type u} (p : α → α → Bool) :
    ∀ (xs ys : List α), allPairs p xs ys = true ↔ ∀ q ∈ xs.zip ys, p q.1 q.2 = true
  | [], ys => by simp [allPairs]
  | _ :: _, [] => by simp [allPairs]
  | x :: xs, y :: ys => by
    rw [allPairs]
    simp [Bool.and_eq_true, allPairs_eq_true_iff p xs ys, List.forall_mem_cons]

theorem allPairs_eq_true_iff_filter_nil {α : Type u} (p : α → α → Bool) :
    ∀ (xs ys : List α) (j : Nat),
      allPairs p xs ys = true ↔
        (withIdxFrom j (xs.zip ys)).filter (fun q => !p q.2.1 q.2.2) = []
  | [], ys, j => by simp [allPairs, withIdxFrom]
  | _ :: _, [], j => by simp [allPairs, withIdxFrom]
  | x :: xs, y :: ys, j => by
    rw [allPairs]
    cases hp : p x y with
    | false => simp [withIdxFrom, List.filter_cons, hp]
    | true =>
      simp [withIdxFrom, List.filter_cons, hp, List.zip,
        allPairs_eq_true_iff_filter_nil p xs ys (j + 1)]

theorem pairwiseCheck_eq_allPairs {α : Type u} (p : α → α → Bool) :
    ∀ (xs ys : List α), xs.length ≤ ys.length →
      pairwiseCheck p xs ys = some (allPairs p xs ys)
  | [], ys, _ => by simp [pairwiseCheck, allPairs]
  | _ :: _, [], h => by simp at h
  | x :: xs, y :: ys, h => by
    have h' : xs.length ≤ ys.length := by simpa using h
    rw [pairwiseCheck, allPairs]
    cases hp : p x y with
    | false => simp [hp]
    | true => simp [hp, pairwiseCheck_eq_allPairs p xs ys h']

theorem eqIssueScan_eq {α : Type u} [BEq α] (mk : Nat → α → α → ValidationIssue) :
    ∀ (xs ys : List α) (j : Nat), xs.length ≤ ys.length →
      eqIssueScan mk j xs ys =
        some (((withIdxFrom j (xs.zip ys)).filter (fun q => !(q.2.1 == q.2.2))).map
          (fun q => mk q.1 q.2.1 q.2.2))
  | [], ys, j, _ => by simp [eqIssueScan, withIdxFrom]
  | _ :: _, [], j, h => by simp at h
  | x :: xs, y :: ys, j, h => by
    have h' : xs.length ≤ ys.length := by simpa using h
    rw [eqIssueScan, eqIssueScan_eq mk xs ys (j + 1) h']
    cases hb : x == y with
    | false => simp [withIdxFrom, List.filter_cons, hb, List.zip]
    | true => simp [withIdxFrom, List.filter_cons, hb, List.zip]

theorem matIssueScan_eq (mayaNames : List String) (mk : Nat → String → ValidationIssue) :
    ∀ (xs ys : List Matrix4x4) (j : Nat), xs.length ≤ ys.length →
      j + xs.length ≤ mayaNames.length →
      matIssueScan mayaNames mk j xs ys =
        some (((withIdxFrom j (xs.zip ys)).filter
            (fun q => !matricesMatch q.2.1 q.2.2 defaultTolerance)).map
          (fun q => mk q.1 (mayaNames.getD q.1 "")))
  | [], ys, j, _, _ => by simp [matIssueScan, withIdxFrom]
  | _ :: _, [], j, h, _ => by simp at h
  | x :: xs, y :: ys, j, h, hn => by
    have h' : xs.length ≤ ys.length := by simpa using h
    have hn' : (j + 1) + xs.length ≤ mayaNames.length := by
      simp only [List.length_cons] at hn; omega
    have hj : j < mayaNames.length := by
      simp only [List.length_cons] at hn; omega
    rw [matIssueScan, matIssueScan_eq mayaNames mk xs ys (j + 1) h' hn']
    cases hb : matricesMatch x y defaultTolerance with
    | true => simp [withIdxFrom, List.filter_cons, hb, List.zip]
    | false =>
      rw [get?_eq_some_getD "" mayaNames j hj]
      simp [withIdxFrom, List.filter_cons, hb, List.zip]

theorem mismatchScan_eq {α : Type u} (p : α → α → Bool)
    (mk : Nat → α → α → ValidationIssue) :
    ∀ (xs ys : List α) (j c : Nat),
      mismatchScan p mk j c xs ys =
        (c + ((withIdxFrom j (xs.zip ys)).filter (fun q => p q.2.1 q.2.2)).length,
         ((((withIdxFrom j (xs.zip ys)).filter (fun q => p q.2.1 q.2.2)).take (5 - c)).map
           (fun q => mk q.1 q.2.1 q.2.2)))
  | [], ys, j, c => by simp [mismatchScan, withIdxFrom]
  | _ :: _, [], j, c => by simp [mismatchScan, withIdxFrom]
  | x :: xs, y :: ys, j, c => by
    rw [mismatchScan]
    cases hp : p x y with
    | false =>
      simp only [Bool.false_eq_true, if_false]
      rw [mismatchScan_eq p mk xs ys (j + 1) c]
      simp [withIdxFrom, List.filter_cons, hp, List.zip]
    | true =>
      simp only [if_true]
      rw [mismatchScan_eq p mk xs ys (j + 1) (c + 1)]
      simp only [withIdxFrom, List.zip, List.zipWith_cons_cons, List.filter_cons, hp,
        if_true, List.length_cons]
      refine Prod.ext (by omega) ?_
      by_cases hc : c + 1 ≤ 5
      · have h5 : 5 - c = (5 - (c + 1)) + 1 := by omega
        simp [hc, h5, List.take_succ_cons, List.zip]
      · have h5 : 5 - c = 0 := by omega
        have h5' : 5 - (c + 1) = 0 := by omega
        simp [hc, h5, h5', List.zip]

theorem beqFilter_nil_iff {α : Type u} [BEq α] (xs ys : List α) (j : Nat) :
    ((withIdxFrom j (xs.zip ys)).filter (fun q => !(q.2.1 == q.2.2)) = []) ↔
      allPairs (fun a b => a == b) xs ys = true :=
  (allPairs_eq_true_iff_filter_nil (fun a b => a == b) xs ys j).symm

theorem matFilter_nil_iff (xs ys : List Matrix4x4) (j : Nat) :
    ((withIdxFrom j (xs.zip ys)).filter
        (fun q => !matricesMatch q.2.1 q.2.2 defaultTolerance) = []) ↔
      allPairs (fun a b => matricesMatch a b defaultTolerance) xs ys = true :=
  (allPairs_eq_true_iff_filter_nil
    (fun a b => matricesMatch a b defaultTolerance) xs ys j).symm

theorem decide_lt_eq_not_decide_le (a b : ℚ) :
    decide (a < b) = !decide (b ≤ a) := by
  by_cases h : b ≤ a
  · simp [h, not_lt.mpr h]
  · simp [h, not_le.mp h]

theorem indexMismatches_nil_iff (u m : SkinBindingData) :
    indexMismatches u m = [] ↔
      allPairs (fun a b => a == b) u.jointIndices m.jointIndices = true :=
  (allPairs_eq_true_iff_filter_nil (fun a b => a == b)
    u.jointIndices m.jointIndices 0).symm

theorem weightMismatches_nil_iff (u m : SkinBindingData) :
    weightMismatches u m = [] ↔
      allPairs (fun a b => decide (|a - b| ≤ weightTolerance))
        u.jointWeights m.jointWeights = true := by
  have hpred : (fun (q : Nat × ℚ × ℚ) => decide (weightTolerance < |q.2.1 - q.2.2|)) =
      (fun q => !decide (|q.2.1 - q.2.2| ≤ weightTolerance)) := by
    funext q; exact decide_lt_eq_not_decide_le _ _
  rw [weightMismatches, hpred]
  exact (allPairs_eq_true_iff_filter_nil
    (fun a b => decide (|a - b| ≤ weightTolerance)) u.jointWeights m.jointWeights 0).symm

/-- Full characterization of `detailedValidateSkeleton` when the joint
counts agree and both inputs satisfy the data-model invariant: the four
per-joint loops report exactly the mismatching positions, in ascending
order, grouped names-parents-binds-rests. -/
theorem detailedValidateSkeleton_eq (u m : SkeletonData)
    (hu : wfSkeleton u) (hm : wfSkeleton m)
    (hc : u.jointNames.length = m.jointNames.length) :
    detailedValidateSkeleton u m = some
      (((withIdxFrom 0 (u.jointNames.zip m.jointNames)).filter
          (fun q => !(q.2.1 == q.2.2))).map (fun q => mkNameIssue q.1 q.2.1 q.2.2) ++
       ((withIdxFrom 0 (u.jointParentIndices.zip m.jointParentIndices)).filter
          (fun q => !(q.2.1 == q.2.2))).map (fun q => mkParentIssue q.1 q.2.1 q.2.2) ++
       ((withIdxFrom 0 (u.bindTransforms.zip m.bindTransforms)).filter
          (fun q => !matricesMatch q.2.1 q.2.2 defaultTolerance)).map
          (fun q => mkBindIssue q.1 (m.jointNames.getD q.1 "")) ++
       ((withIdxFrom 0 (u.restTransforms.zip m.restTransforms)).filter
          (fun q => !matricesMatch q.2.1 q.2.2 defaultTolerance)).map
          (fun q => mkRestIssue q.1 (m.jointNames.getD q.1 ""))) := by
  obtain ⟨hu1, hu2, hu3⟩ := hu
  obtain ⟨hm1, hm2, hm3⟩ := hm
  simp only [detailedValidateSkeleton]
  rw [if_neg (by omega),
    eqIssueScan_eq mkNameIssue u.jointNames m.jointNames 0 (by omega),
    eqIssueScan_eq mkParentIssue u.jointParentIndices m.jointParentIndices 0 (by omega),
    matIssueScan_eq m.jointNames mkBindIssue u.bindTransforms m.bindTransforms 0
      (by omega) (by omega),
    matIssueScan_eq m.jointNames mkRestIssue u.restTransforms m.restTransforms 0
      (by omega) (by omega)]
  rfl

/-- When all compared array lengths agree, `quickValidateSkeleton` is the
conjunction of its four element loops. -/
theorem quickValidateSkeleton_true_iff (u m : SkeletonData)
    (hc : u.jointNames.length = m.jointNames.length)
    (hp : u.jointParentIndices.length = m.jointParentIndices.length)
    (hb : u.bindTransforms.length = m.bindTransforms.length)
    (hr : u.restTransforms.length ≤ m.restTransforms.length) :
    quickValidateSkeleton u m = some true ↔
      (allPairs (fun a b => a == b) u.jointNames m.jointNames = true ∧
       allPairs (fun a b => a == b) u.jointParentIndices m.jointParentIndices = true ∧
       allPairs (fun a b => matricesMatch a b defaultTolerance)
         u.bindTransforms m.bindTransforms = true ∧
       allPairs (fun a b => matricesMatch a b defaultTolerance)
         u.restTransforms m.restTransforms = true) := by
  simp only [quickValidateSkeleton]
  rw [pairwiseCheck_eq_allPairs _ _ _ hr]
  cases h1 : allPairs (fun a b => a == b) u.jointNames m.jointNames <;>
    cases h2 : allPairs (fun a b => a == b) u.jointParentIndices m.jointParentIndices <;>
      cases h3 : allPairs (fun a b => matricesMatch a b defaultTolerance)
          u.bindTransforms m.bindTransforms <;>
        cases h4 : allPairs (fun a b => matricesMatch a b defaultTolerance)
            u.restTransforms m.restTransforms <;>
          simp [hc, hp, hb, h1, h2, h3, h4]

/-- Full characterization of `detailedValidateSkinBinding` when both
length checks pass: the first five index mismatches, the index summary
when more than five were counted, then the same for weights, then the
geometry bind transform. -/
theorem detailedValidateSkinBinding_eq (u m : SkinBindingData)
    (hI : u.jointIndices.length = m.jointIndices.length)
    (hW : u.jointWeights.length = m.jointWeights.length) :
    detailedValidateSkinBinding u m =
      (((indexMismatches u m).take 5).map (fun q => mkJointIndexIssue q.1 q.2.1 q.2.2) ++
        (if 5 < (indexMismatches u m).length then
          [idxSummaryIssue ((indexMismatches u m).length - 5)] else [])) ++
      (((weightMismatches u m).take 5).map (fun q => mkWeightIssue q.1 q.2.1 q.2.2) ++
        (if 5 < (weightMismatches u m).length then
          [wtSummaryIssue ((weightMismatches u m).length - 5)] else [])) ++
      (if matricesMatch u.geomBindTransform m.geomBindTransform defaultTolerance
        then [] else [geomBindIssue]) := by
  simp only [detailedValidateSkinBinding, mismatchScan_eq, indexMismatches,
    weightMismatches]
  simp [hI, hW]

/-! ## Concrete inputs for witnesses and counterexamples -/

/-- The all-zero matrix. -/
def mat0 : Matrix4x4 := fun _ _ => 0

/-- The all-one matrix. -/
def mat1 : Matrix4x4 := fun _ _ => 1

/-- A well-formed three-joint skeleton (spec §8, Scenario A). -/
def skelA : SkeletonData :=
  { jointNames := ["root", "arm", "hand"]
    jointParentIndices := [-1, 0, 1]
    bindTransforms := [mat0, mat0, mat0]
    restTransforms := [mat0, mat0, mat0] }

/-- A well-formed two-joint skeleton. -/
def skelB : SkeletonData :=
  { jointNames := ["root", "arm"]
    jointParentIndices := [-1, 0]
    bindTransforms := [mat0, mat0]
    restTransforms := [mat0, mat0] }

/-- Like `skelA` but joint 1 is named differently (spec §8, Scenario C). -/
def skelC : SkeletonData :=
  { jointNames := ["root", "forearm", "hand"]
    jointParentIndices := [-1, 0, 1]
    bindTransforms := [mat0, mat0, mat0]
    restTransforms := [mat0, mat0, mat0] }

/-- A single-joint skeleton violating the data-model invariant: two rest
transforms for one joint. -/
def skelOob : SkeletonData :=
  { jointNames := ["a"]
    jointParentIndices := [-1]
    bindTransforms := [mat0]
    restTransforms := [mat0, mat1] }

/-- A well-formed single-joint skeleton agreeing with `skelOob` on every
compared prefix. -/
def skelOne : SkeletonData :=
  { jointNames := ["a"]
    jointParentIndices := [-1]
    bindTransforms := [mat0]
    restTransforms := [mat0] }

/-- A small self-consistent skin binding. -/
def skinA : SkinBindingData :=
  { jointIndices := [0, 1]
    jointWeights := [1 / 2, 1 / 2]
    geomBindTransform := mat0 }

/-- Seven samples, all joint index 0, all weight 0. -/
def skinU : SkinBindingData :=
  { jointIndices := [0, 0, 0, 0, 0, 0, 0]
    jointWeights := [0, 0, 0, 0, 0, 0, 0]
    geomBindTransform := mat0 }

/-- Seven samples, all joint index 1, all weight 1: seven joint-index and
seven weight mismatches against `skinU`. -/
def skinM : SkinBindingData :=
  { jointIndices := [1, 1, 1, 1, 1, 1, 1]
    jointWeights := [1, 1, 1, 1, 1, 1, 1]
    geomBindTransform := mat0 }

/-- One sample: joint-index length differs from `skinU`. -/
def skinShort : SkinBindingData :=
  { jointIndices := [0]
    jointWeights := [0]
    geomBindTransform := mat0 }

/-- Seven joint indices but one weight: weight length differs from
`skinU` while the joint-index lengths agree. -/
def skinWshort : SkinBindingData :=
  { jointIndices := [0, 0, 0, 0, 0, 0, 0]
    jointWeights := [0]
    geomBindTransform := mat0 }

/-! ## The claims -/

/-- C1: for every pair of a USD-sourced and a Maya-sourced skeleton —
i.e. skeletons satisfying the data-model length invariant `wfSkeleton`,
which both extraction paths guarantee before a validator ever runs —
`quickValidateSkeleton` returns `true` exactly when
`detailedValidateSkeleton` returns the empty issue sequence. -/
theorem quick_iff_detailed_skeleton (u m : SkeletonData)
    (hu : wfSkeleton u) (hm : wfSkeleton m) :
    quickValidateSkeleton u m = some true ↔
      detailedValidateSkeleton u m = some [] := by
  obtain ⟨hu1, hu2, hu3⟩ := hu
  obtain ⟨hm1, hm2, hm3⟩ := hm
  by_cases hc : u.jointNames.length = m.jointNames.length
  · rw [quickValidateSkeleton_true_iff u m hc (by omega) (by omega) (by omega),
      detailedValidateSkeleton_eq u m ⟨hu1, hu2, hu3⟩ ⟨hm1, hm2, hm3⟩ hc]
    simp only [Option.some.injEq, List.append_eq_nil, List.map_eq_nil_iff]
    rw [beqFilter_nil_iff, beqFilter_nil_iff, matFilter_nil_iff, matFilter_nil_iff]
    tauto
  · have hq : quickValidateSkeleton u m = some false := by
      simp [quickValidateSkeleton, hc]
    have hd : detailedValidateSkeleton u m =
        some [jointCountIssue u.jointNames.length m.jointNames.length] := by
      simp [detailedValidateSkeleton, hc]
    rw [hq, hd]
    simp

/-- Witness for C1 at a concrete well-formed pair. -/
theorem quick_iff_detailed_skeleton_witness :
    wfSkeleton skelA ∧
      (quickValidateSkeleton skelA skelA = some true ↔
        detailedValidateSkeleton skelA skelA = some []) :=
  ⟨by decide, quick_iff_detailed_skeleton skelA skelA (by decide) (by decide)⟩

/-- C2: for every pair of skin bindings, `quickValidateSkinBinding`
returns `true` exactly when `detailedValidateSkinBinding` returns the
empty issue sequence (no well-formedness assumption is needed: the
detailed validator cross-checks both sequence lengths itself). -/
theorem quick_iff_detailed_skin (u m : SkinBindingData) :
    quickValidateSkinBinding u m = true ↔
      detailedValidateSkinBinding u m = [] := by
  by_cases hI : u.jointIndices.length = m.jointIndices.length
  · by_cases hW : u.jointWeights.length = m.jointWeights.length
    · rw [detailedValidateSkinBinding_eq u m hI hW]
      have hq : quickValidateSkinBinding u m = true ↔
          (allPairs (fun a b => a == b) u.jointIndices m.jointIndices = true ∧
           allPairs (fun a b => decide (|a - b| ≤ weightTolerance))
             u.jointWeights m.jointWeights = true ∧
           matricesMatch u.geomBindTransform m.geomBindTransform
             defaultTolerance = true) := by
        simp [quickValidateSkinBinding, hI, hW, Bool.and_eq_true, and_assoc]
      rw [hq, ← indexMismatches_nil_iff, ← weightMismatches_nil_iff]
      by_cases h1 : indexMismatches u m = [] <;>
        by_cases h2 : weightMismatches u m = [] <;>
          cases h3 : matricesMatch u.geomBindTransform m.geomBindTransform
              defaultTolerance <;>
            simp [h1, h2, h3, List.append_eq_nil, List.take_eq_nil_iff,
              List.map_eq_nil_iff]
    · simp [quickValidateSkinBinding, detailedValidateSkinBinding, hI, hW]
  · simp [quickValidateSkinBinding, detailedValidateSkinBinding, hI]

/-- Witness for C2 at a concrete pair. -/
theorem quick_iff_detailed_skin_witness :
    quickValidateSkinBinding skinA skinA = true ↔
      detailedValidateSkinBinding skinA skinA = [] :=
  quick_iff_detailed_skin skinA skinA

/-- C3: `matricesMatch a b tol` is `true` exactly when all 16 entrywise
absolute differences are at most `tol`; the comparison is `≤`, so a
difference exactly equal to the tolerance passes. -/
theorem matricesMatch_iff_entrywise (a b : Matrix4x4) (tol : ℚ) :
    matricesMatch a b tol = true ↔ ∀ (r c : Fin 4), |a r c - b r c| ≤ tol := by
  simp [matricesMatch, List.all_eq_true, List.mem_finRange, decide_eq_true_eq]

/-- Witness for C3 at a concrete input. -/
theorem matricesMatch_iff_entrywise_witness :
    matricesMatch mat0 mat0 defaultTolerance = true ↔
      ∀ (r c : Fin 4), |mat0 r c - mat0 r c| ≤ defaultTolerance :=
  matricesMatch_iff_entrywise mat0 mat0 defaultTolerance

/-- C4: with equal joint-index and weight lengths and more than five
joint-index mismatches, the detailed skin-binding validator emits exactly
the first five mismatches in ascending position order (`indexMismatches`
is the ascending list of all mismatching positions), each tagged with its
position by `mkJointIndexIssue`, immediately followed by exactly one
summary issue carrying `total − 5`; the weight part of the output obeys
the identical first-5-then-summary policy at absolute tolerance `1e-5`
(`weightMismatches`). -/
theorem detailedSkin_first5_then_summary (u m : SkinBindingData)
    (hI : u.jointIndices.length = m.jointIndices.length)
    (hW : u.jointWeights.length = m.jointWeights.length)
    (h5 : 5 < (indexMismatches u m).length) :
    detailedValidateSkinBinding u m =
      ((indexMismatches u m).take 5).map (fun q => mkJointIndexIssue q.1 q.2.1 q.2.2) ++
      [idxSummaryIssue ((indexMismatches u m).length - 5)] ++
      (((weightMismatches u m).take 5).map (fun q => mkWeightIssue q.1 q.2.1 q.2.2) ++
        (if 5 < (weightMismatches u m).length then
          [wtSummaryIssue ((weightMismatches u m).length - 5)] else [])) ++
      (if matricesMatch u.geomBindTransform m.geomBindTransform defaultTolerance
        then [] else [geomBindIssue]) := by
  rw [detailedValidateSkinBinding_eq u m hI hW, if_pos h5]

/-- Witness for C4 at a pair with seven joint-index mismatches. -/
theorem detailedSkin_first5_then_summary_witness :
    5 < (indexMismatches skinU skinM).length ∧
    detailedValidateSkinBinding skinU skinM =
      ((indexMismatches skinU skinM).take 5).map
        (fun q => mkJointIndexIssue q.1 q.2.1 q.2.2) ++
      [idxSummaryIssue ((indexMismatches skinU skinM).length - 5)] ++
      (((weightMismatches skinU skinM).take 5).map
        (fun q => mkWeightIssue q.1 q.2.1 q.2.2) ++
        (if 5 < (weightMismatches skinU skinM).length then
          [wtSummaryIssue ((weightMismatches skinU skinM).length - 5)] else [])) ++
      (if matricesMatch skinU.geomBindTransform skinM.geomBindTransform
          defaultTolerance then [] else [geomBindIssue]) :=
  ⟨by decide,
    detailedSkin_first5_then_summary skinU skinM (by decide) (by decide) (by decide)⟩

/-- C5: when the joint counts differ, the detailed skeleton validator
returns exactly one issue, of joint-count-mismatch kind, whose description
carries both counts; and the result is the same whatever the per-joint
data is (no per-joint comparison is performed). -/
theorem detailedSkel_count_mismatch_only (u m : SkeletonData)
    (h : u.jointNames.length ≠ m.jointNames.length) :
    detailedValidateSkeleton u m =
      some [{ type := IssueType.JOINT_COUNT_MISMATCH,
              description := "Joint count mismatch: USD has " ++
                toString u.jointNames.length ++ " joints, Maya has " ++
                toString m.jointNames.length ++ " joints",
              index := none }] ∧
    detailedValidateSkeleton u m =
      detailedValidateSkeleton
        { jointNames := u.jointNames, jointParentIndices := [],
          bindTransforms := [], restTransforms := [] }
        { jointNames := m.jointNames, jointParentIndices := [],
          bindTransforms := [], restTransforms := [] } := by
  refine ⟨?_, ?_⟩
  · simp [detailedValidateSkeleton, h, jointCountIssue]
  · simp [detailedValidateSkeleton, h]

/-- Witness for C5: three joints against two. -/
theorem detailedSkel_count_mismatch_only_witness :
    skelA.jointNames.length ≠ skelB.jointNames.length ∧
    detailedValidateSkeleton skelA skelB =
      some [{ type := IssueType.JOINT_COUNT_MISMATCH,
              description := "Joint count mismatch: USD has " ++
                toString skelA.jointNames.length ++ " joints, Maya has " ++
                toString skelB.jointNames.length ++ " joints",
              index := none }] :=
  ⟨by decide, (detailedSkel_count_mismatch_only skelA skelB (by decide)).1⟩

/-- C6: a joint-index length mismatch makes the detailed skin-binding
validator return exactly one count-mismatch issue immediately; with equal
joint-index lengths, a weight length mismatch does the same. -/
theorem detailedSkin_count_mismatch_early_return (u m : SkinBindingData) :
    (u.jointIndices.length ≠ m.jointIndices.length →
      detailedValidateSkinBinding u m =
        [jointIndicesCountIssue u.jointIndices.length m.jointIndices.length]) ∧
    (u.jointIndices.length = m.jointIndices.length →
      u.jointWeights.length ≠ m.jointWeights.length →
      detailedValidateSkinBinding u m =
        [jointWeightsCountIssue u.jointWeights.length m.jointWeights.length]) := by
  refine ⟨fun h => ?_, fun hI hW => ?_⟩
  · simp [detailedValidateSkinBinding, h]
  · simp [detailedValidateSkinBinding, hI, hW]

/-- Witness for C6: both early-return branches at concrete inputs. -/
theorem detailedSkin_count_mismatch_early_return_witness :
    detailedValidateSkinBinding skinShort skinU = [jointIndicesCountIssue 1 7] ∧
    detailedValidateSkinBinding skinWshort skinU = [jointWeightsCountIssue 1 7] := by
  constructor
  · have h := (detailedSkin_count_mismatch_early_return skinShort skinU).1 (by decide)
    simpa [skinShort, skinU] using h
  · have h := (detailedSkin_count_mismatch_early_return skinWshort skinU).2
      (by decide) (by decide)
    simpa [skinWshort, skinU] using h

/-- C7: the quick skin-binding check returns `true` exactly when both
sequence lengths agree, every joint index agrees position-for-position,
every pair of corresponding weights differs by at most `1e-5` in absolute
value, and the geometry bind transforms match per `matricesMatch`. -/
theorem quickSkin_true_iff (u m : SkinBindingData) :
    quickValidateSkinBinding u m = true ↔
      (u.jointIndices.length = m.jointIndices.length ∧
       u.jointWeights.length = m.jointWeights.length ∧
       (∀ q ∈ u.jointIndices.zip m.jointIndices, q.1 = q.2) ∧
       (∀ q ∈ u.jointWeights.zip m.jointWeights, |q.1 - q.2| ≤ weightTolerance) ∧
       matricesMatch u.geomBindTransform m.geomBindTransform defaultTolerance
         = true) := by
  by_cases hI : u.jointIndices.length = m.jointIndices.length
  · by_cases hW : u.jointWeights.length = m.jointWeights.length
    · simp [quickValidateSkinBinding, hI, hW, Bool.and_eq_true,
        allPairs_eq_true_iff, and_assoc]
    · simp [quickValidateSkinBinding, hI, hW]
  · simp [quickValidateSkinBinding, hI]

/-- Witness for C7 at a concrete pair. -/
theorem quickSkin_true_iff_witness :
    quickValidateSkinBinding skinA skinA = true ↔
      (skinA.jointIndices.length = skinA.jointIndices.length ∧
       skinA.jointWeights.length = skinA.jointWeights.length ∧
       (∀ q ∈ skinA.jointIndices.zip skinA.jointIndices, q.1 = q.2) ∧
       (∀ q ∈ skinA.jointWeights.zip skinA.jointWeights,
         |q.1 - q.2| ≤ weightTolerance) ∧
       matricesMatch skinA.geomBindTransform skinA.geomBindTransform
         defaultTolerance = true) :=
  quickSkin_true_iff skinA skinA

/-- C8: with equal joint counts (and both inputs satisfying the
data-model invariant, as every extracted skeleton does), the detailed
skeleton validator checks every position of every category and returns
all name mismatches first, then all parent-index mismatches, then all
bind-transform mismatches, then all rest-transform mismatches; each group
is the filter of the full ascending position list (`withIdxFrom 0`), so it
is in ascending joint order, and each issue is tagged with its joint index
by its `mk` function. -/
theorem detailedSkel_exhaustive_grouped (u m : SkeletonData)
    (hu : wfSkeleton u) (hm : wfSkeleton m)
    (hc : u.jointNames.length = m.jointNames.length) :
    detailedValidateSkeleton u m = some
      (((withIdxFrom 0 (u.jointNames.zip m.jointNames)).filter
          (fun q => !(q.2.1 == q.2.2))).map (fun q => mkNameIssue q.1 q.2.1 q.2.2) ++
       ((withIdxFrom 0 (u.jointParentIndices.zip m.jointParentIndices)).filter
          (fun q => !(q.2.1 == q.2.2))).map (fun q => mkParentIssue q.1 q.2.1 q.2.2) ++
       ((withIdxFrom 0 (u.bindTransforms.zip m.bindTransforms)).filter
          (fun q => !matricesMatch q.2.1 q.2.2 defaultTolerance)).map
          (fun q => mkBindIssue q.1 (m.jointNames.getD q.1 "")) ++
       ((withIdxFrom 0 (u.restTransforms.zip m.restTransforms)).filter
          (fun q => !matricesMatch q.2.1 q.2.2 defaultTolerance)).map
          (fun q => mkRestIssue q.1 (m.jointNames.getD q.1 ""))) :=
  detailedValidateSkeleton_eq u m hu hm hc

/-- Witness for C8 at a pair with a name mismatch at joint 1. -/
theorem detailedSkel_exhaustive_grouped_witness :
    wfSkeleton skelA ∧ wfSkeleton skelC ∧
    detailedValidateSkeleton skelA skelC = some
      (((withIdxFrom 0 (skelA.jointNames.zip skelC.jointNames)).filter
          (fun q => !(q.2.1 == q.2.2))).map (fun q => mkNameIssue q.1 q.2.1 q.2.2) ++
       ((withIdxFrom 0 (skelA.jointParentIndices.zip skelC.jointParentIndices)).filter
          (fun q => !(q.2.1 == q.2.2))).map (fun q => mkParentIssue q.1 q.2.1 q.2.2) ++
       ((withIdxFrom 0 (skelA.bindTransforms.zip skelC.bindTransforms)).filter
          (fun q => !matricesMatch q.2.1 q.2.2 defaultTolerance)).map
          (fun q => mkBindIssue q.1 (skelC.jointNames.getD q.1 "")) ++
       ((withIdxFrom 0 (skelA.restTransforms.zip skelC.restTransforms)).filter
          (fun q => !matricesMatch q.2.1 q.2.2 defaultTolerance)).map
          (fun q => mkRestIssue q.1 (skelC.jointNames.getD q.1 ""))) :=
  ⟨by decide, by decide,
    detailedSkel_exhaustive_grouped skelA skelC (by decide) (by decide) (by decide)⟩

/-- C9 counterexample: `skelOob` violates the data-model invariant (one
joint, two rest transforms).  Both validators, run against the
well-formed `skelOne`, walk their rest-transform loop past the end of the
Maya-side array: in C++ an out-of-bounds read (undefined behaviour), in
this embedding `none`.  The invariant violation does not surface as a
reportable condition in the validators; in this repository it is caught
earlier, by `parseUSDSkelData`, which refuses to build such a skeleton. -/
theorem skeleton_validators_oob_counterexample :
    ¬ wfSkeleton skelOob ∧
    quickValidateSkeleton skelOob skelOne = none ∧
    detailedValidateSkeleton skelOob skelOne = none := by
  have hmm : matricesMatch mat0 mat0 defaultTolerance = true := by
    simp [matricesMatch, mat0, defaultTolerance]
  refine ⟨by decide, ?_, ?_⟩
  · simp [quickValidateSkeleton, skelOob, skelOne, allPairs, pairwiseCheck, hmm]
  · simp [detailedValidateSkeleton, skelOob, skelOne, eqIssueScan, matIssueScan,
      hmm, Option.bind]

/-- C9 amended: on inputs that satisfy the data-model invariant — the
only inputs the extraction collaborators ever produce — both skeleton
validators complete, every sequence access in bounds. -/
theorem skeleton_validators_complete_of_wf (u m : SkeletonData)
    (hu : wfSkeleton u) (hm : wfSkeleton m) :
    (quickValidateSkeleton u m).isSome ∧
      (detailedValidateSkeleton u m).isSome := by
  obtain ⟨hu1, hu2, hu3⟩ := hu
  obtain ⟨hm1, hm2, hm3⟩ := hm
  by_cases hc : u.jointNames.length = m.jointNames.length
  · constructor
    · simp only [quickValidateSkeleton]
      rw [pairwiseCheck_eq_allPairs _ _ _
        (by omega : u.restTransforms.length ≤ m.restTransforms.length)]
      cases hA1 : allPairs (fun a b => a == b) u.jointNames m.jointNames <;>
        cases hA2 : allPairs (fun a b => a == b) u.jointParentIndices
            m.jointParentIndices <;>
          cases hA3 : allPairs (fun a b => matricesMatch a b defaultTolerance)
              u.bindTransforms m.bindTransforms <;>
            simp [hc, hA1, hA2, hA3,
              (by omega : u.jointParentIndices.length = m.jointParentIndices.length),
              (by omega : u.bindTransforms.length = m.bindTransforms.length)]
    · rw [detailedValidateSkeleton_eq u m ⟨hu1, hu2, hu3⟩ ⟨hm1, hm2, hm3⟩ hc]
      rfl
  · constructor
    · simp [quickValidateSkeleton, hc]
    · simp [detailedValidateSkeleton, hc]

/-- Witness for the amended C9 at a concrete well-formed pair with
differing joint counts. -/
theorem skeleton_validators_complete_of_wf_witness :
    wfSkeleton skelOne ∧ wfSkeleton skelA ∧
      (quickValidateSkeleton skelOne skelA).isSome ∧
      (detailedValidateSkeleton skelOne skelA).isSome :=
  ⟨by decide, by decide,
    (skeleton_validators_complete_of_wf skelOne skelA (by decide) (by decide)).1,
    (skeleton_validators_complete_of_wf skelOne skelA (by decide) (by decide)).2⟩

/-- C10: when more than five joint-index (resp. weight) mismatches exist,
the emitted summary issue carries the same issue kind as the individual
mismatch issues it summarizes (`JOINT_INDEX_MISMATCH`, resp.
`WEIGHT_VALUE_MISMATCH`) and carries no position index, while every
individual mismatch issue carries its position: kind alone cannot
distinguish a summary record from an individual one, only the absent
index can. -/
theorem summary_same_kind_distinguished_by_index (u m : SkinBindingData)
    (hI : u.jointIndices.length = m.jointIndices.length)
    (hW : u.jointWeights.length = m.jointWeights.length)
    (h5I : 5 < (indexMismatches u m).length)
    (h5W : 5 < (weightMismatches u m).length) :
    (idxSummaryIssue ((indexMismatches u m).length - 5) ∈
        detailedValidateSkinBinding u m ∧
      (idxSummaryIssue ((indexMismatches u m).length - 5)).type =
        IssueType.JOINT_INDEX_MISMATCH ∧
      (idxSummaryIssue ((indexMismatches u m).length - 5)).index = none) ∧
    (∀ q ∈ (indexMismatches u m).take 5,
      mkJointIndexIssue q.1 q.2.1 q.2.2 ∈ detailedValidateSkinBinding u m ∧
      (mkJointIndexIssue q.1 q.2.1 q.2.2).type = IssueType.JOINT_INDEX_MISMATCH ∧
      (mkJointIndexIssue q.1 q.2.1 q.2.2).index = some q.1) ∧
    (wtSummaryIssue ((weightMismatches u m).length - 5) ∈
        detailedValidateSkinBinding u m ∧
      (wtSummaryIssue ((weightMismatches u m).length - 5)).type =
        IssueType.WEIGHT_VALUE_MISMATCH ∧
      (wtSummaryIssue ((weightMismatches u m).length - 5)).index = none) ∧
    (∀ q ∈ (weightMismatches u m).take 5,
      mkWeightIssue q.1 q.2.1 q.2.2 ∈ detailedValidateSkinBinding u m ∧
      (mkWeightIssue q.1 q.2.1 q.2.2).type = IssueType.WEIGHT_VALUE_MISMATCH ∧
      (mkWeightIssue q.1 q.2.1 q.2.2).index = some q.1) := by
  rw [detailedValidateSkinBinding_eq u m hI hW, if_pos h5I, if_pos h5W]
  refine ⟨⟨?_, rfl, rfl⟩, fun q hq => ⟨?_, rfl, rfl⟩, ⟨?_, rfl, rfl⟩,
    fun q hq => ⟨?_, rfl, rfl⟩⟩
  · exact List.mem_append_left _
      (List.mem_append_left _ (List.mem_append_right _ (List.mem_singleton_self _)))
  · exact List.mem_append_left _
      (List.mem_append_left _ (List.mem_append_left _ (List.mem_map_of_mem _ hq)))
  · exact List.mem_append_left _
      (List.mem_append_right _ (List.mem_append_right _ (List.mem_singleton_self _)))
  · exact List.mem_append_left _
      (List.mem_append_right _ (List.mem_append_left _ (List.mem_map_of_mem _ hq)))

/-- Witness for C10 at a pair with seven index and seven weight
mismatches. -/
theorem summary_same_kind_distinguished_by_index_witness :
    5 < (indexMismatches skinU skinM).length ∧
    5 < (weightMismatches skinU skinM).length ∧
    (idxSummaryIssue ((indexMismatches skinU skinM).length - 5)).index = none ∧
    idxSummaryIssue ((indexMismatches skinU skinM).length - 5) ∈
      detailedValidateSkinBinding skinU skinM := by
  have h5W : 5 < (weightMismatches skinU skinM).length := by
    have hq : weightTolerance < 1 := by
      simp only [weightTolerance]
      norm_num
    simp [weightMismatches, skinU, skinM, withIdxFrom, List.zip, List.filter_cons, hq]
  refine ⟨by decide, h5W, rfl, ?_⟩
  exact ((summary_same_kind_distinguished_by_index skinU skinM rfl rfl
    (by decide) h5W).1).1

end RigValidator
